import Mathlib

/-!
Shallow embedding of the request-dispatch and asynchronous-result layer of the
Stability AI MCP server (TypeScript sources: the Stability client class, the MCP
tool handlers and the configuration loader).  Pure data flow — multipart form
construction, MIME inference, transport error construction, the submit-then-poll
state machine and configuration loading — is translated into executable Lean
definitions; network responses are passed in as explicit values, and the file
system is passed in as the list of existing (resolved) paths.  Exceptions thrown
by the JavaScript code are modelled with `Except` or with explicit outcome
inductives whose constructors mirror the distinct `throw` sites.
-/

namespace StabilityMCP

/-- JavaScript truthiness of an optional string (`undefined` and `""` are falsy,
every other string is truthy).  Models conditions such as `if (options.mask)`. -/
def jsTruthy : Option String → Bool
  | some s => !s.isEmpty
  | none => false

/-- JavaScript `a || d` for an optional string `a` and default `d`:
the default is used when `a` is `undefined` or the empty string. -/
def jsOr (a : Option String) (d : String) : String :=
  if jsTruthy a then a.getD "" else d

/-- Whether `sub` occurs as a contiguous subsequence of the character list.
Helper for `includes`. -/
def containsSeq (sub : List Char) : List Char → Bool
  | [] => sub.isEmpty
  | c :: rest => sub.isPrefixOf (c :: rest) || containsSeq sub rest

/-- JavaScript `String.prototype.includes`. -/
def includes (s sub : String) : Bool :=
  containsSeq sub.toList s.toList

/-- JavaScript `String.prototype.startsWith`. -/
def jsStartsWith (s p : String) : Bool :=
  p.toList.isPrefixOf s.toList

/-- JavaScript `String.prototype.toLowerCase` (ASCII, as used on extensions). -/
def jsToLowerCase (s : String) : String :=
  String.mk (s.toList.map Char.toLower)

/-- Node `path.resolve` for a single argument, relative to a current working
directory `cwd`: an absolute path is returned as given, a relative path is
joined onto `cwd`.  (Normalization of `.`/`..` segments is not modelled; all
inputs used in the development are already normalized.) -/
def resolve (cwd p : String) : String :=
  match p.toList with
  | '/' :: _ => p
  | _ => cwd ++ "/" ++ p

/-- Last path component of a string (helper for Node `path.extname`). -/
def lastComponent : List Char → List Char → List Char
  | [], acc => acc
  | c :: rest, acc =>
    if c = '/' then lastComponent rest []
    else lastComponent rest (acc ++ [c])

/-- Index of the last `'.'` in a character list, if any. -/
def lastDotIdx : List Char → Nat → Option Nat
  | [], _ => none
  | c :: rest, i =>
    match lastDotIdx rest (i + 1) with
    | some j => some j
    | none => if c = '.' then some i else none

/-- Node `path.extname`: the substring of the basename from its last `'.'`
(inclusive) to the end; empty when there is no dot or the only dot leads the
basename (dot-files have no extension). -/
def extname (p : String) : String :=
  let base := lastComponent p.toList []
  match lastDotIdx base 0 with
  | some i => if i = 0 then "" else String.mk (base.drop i)
  | none => ""

/-- The fixed extension → MIME table of `StabilityClient.getMimeType`. -/
def mimeTypes : List (String × String) :=
  [(".png", "image/png"), (".jpg", "image/jpeg"), (".jpeg", "image/jpeg"),
   (".webp", "image/webp"), (".gif", "image/gif"), (".bmp", "image/bmp")]

/-- `StabilityClient.getMimeType`: lower-cased extension looked up in the fixed
table, defaulting to `image/png`. -/
def getMimeType (filePath : String) : String :=
  let ext := jsToLowerCase (extname filePath)
  match mimeTypes.lookup ext with
  | some m => m
  | none => "image/png"

/-- JavaScript `parseInt(s, 10)`: leading whitespace skipped, optional sign,
then the longest leading run of decimal digits; `none` models `NaN` (no
digits). -/
def parseIntJS (s : String) : Option Int :=
  let cs := s.toList.dropWhile Char.isWhitespace
  let signed : Int × List Char :=
    match cs with
    | '-' :: r => (-1, r)
    | '+' :: r => (1, r)
    | r => (1, r)
  let ds := signed.2.takeWhile Char.isDigit
  if ds.isEmpty then none
  else some (signed.1 * Int.ofNat (ds.foldl (fun a c => a * 10 + (c.toNat - 48)) 0))

/-- A multipart form part value: UTF-8 text, or a binary blob loaded from a
resolved file path with an inferred MIME type (the `Blob` built by
`StabilityClient.fileBlob`). -/
inductive PartValue
  | text (s : String)
  | file (absolutePath : String) (mimeType : String)
deriving DecidableEq, Repr

/-- One named part of a multipart form (`form.append(name, value)`). -/
structure FormPart where
  name : String
  value : PartValue
deriving DecidableEq, Repr

/-- A multipart form body: the ordered list of appended parts. -/
abbrev Form := List FormPart

/-- `if (cond) form.append(name, value)`: the sub-form contributed by one
conditional append. -/
def optPart (present : Bool) (name : String) (value : PartValue) : Form :=
  if present then [⟨name, value⟩] else []

/-- `Bool`-valued test for the presence of a named field in a form. -/
def hasField (f : Form) (n : String) : Bool :=
  f.any (fun p => p.name == n)

/-- Value of the first part with the given name, if any. -/
def getField (f : Form) (n : String) : Option PartValue :=
  (f.find? (fun p => p.name == n)).map (fun p => p.value)

/-- `StabilityClient.fileBlob`: resolve the path, fail with
`File not found: <absolutePath>` when the file does not exist, otherwise load
the bytes as a blob typed by `getMimeType`.  The file system is modelled as the
list `fs` of existing resolved paths. -/
def fileBlob (fs : List String) (cwd filePath : String) : Except String PartValue :=
  let absolutePath := resolve cwd filePath
  if absolutePath ∈ fs then
    Except.ok (PartValue.file absolutePath (getMimeType absolutePath))
  else
    Except.error ("File not found: " ++ absolutePath)

/-- The five generation model keys of `GENERATION_MODELS`. -/
inductive GenerationModel
  | ultra | core | sd35Large | sd35LargeTurbo | sd35Medium
deriving DecidableEq, Repr

/-- The model key string as written by the caller (`'sd3.5-large'`, …). -/
def modelName : GenerationModel → String
  | .ultra => "ultra"
  | .core => "core"
  | .sd35Large => "sd3.5-large"
  | .sd35LargeTurbo => "sd3.5-large-turbo"
  | .sd35Medium => "sd3.5-medium"

/-- The `GENERATION_MODELS` table from the configuration module. -/
def GENERATION_MODELS : GenerationModel → String
  | .ultra => "/v2beta/stable-image/generate/ultra"
  | .core => "/v2beta/stable-image/generate/core"
  | .sd35Large => "/v2beta/stable-image/generate/sd3"
  | .sd35LargeTurbo => "/v2beta/stable-image/generate/sd3"
  | .sd35Medium => "/v2beta/stable-image/generate/sd3"

/-- The three upscale mode keys of `UPSCALE_ENDPOINTS`. -/
inductive UpscaleMode
  | fast | conservative | creative
deriving DecidableEq, Repr

/-- The `UPSCALE_ENDPOINTS` table from the configuration module. -/
def UPSCALE_ENDPOINTS : UpscaleMode → String
  | .fast => "/v2beta/stable-image/upscale/fast"
  | .conservative => "/v2beta/stable-image/upscale/conservative"
  | .creative => "/v2beta/stable-image/upscale/creative"

/-- A fully built upstream request: resolved endpoint path, multipart body, and
whether the dispatch path is the asynchronous (submit-then-poll) one. -/
structure BuiltRequest where
  endpoint : String
  form : Form
  async : Bool := false
deriving DecidableEq, Repr

/-- Options of `StabilityClient.generateImage`.  Optional numeric fields carry
`Option` values; `none` is JavaScript `undefined`. -/
structure GenerateOptions where
  prompt : String
  model : Option GenerationModel := none
  negativePrompt : Option String := none
  image : Option String := none
  strength : Option ℚ := none
  seed : Option Nat := none
  aspectRatio : Option String := none
  outputFormat : Option String := none
  stylePreset : Option String := none
deriving DecidableEq, Repr

/-- `StabilityClient.generateImage` up to (and excluding) the network call: the
endpoint resolution and multipart body construction, in source order.  Text
field conditions use JavaScript truthiness (`if (options.negativePrompt)`),
numeric fields use the `!== undefined` test, and the image branch mirrors the
`sd3.5` / `ultra` / other split of the source. -/
def generateImage (fs : List String) (cwd : String) (o : GenerateOptions) :
    Except String BuiltRequest :=
  let model := o.model.getD GenerationModel.core
  let endpoint := GENERATION_MODELS model
  let base : Form :=
    [⟨"prompt", PartValue.text o.prompt⟩]
    ++ optPart (jsTruthy o.negativePrompt) "negative_prompt"
         (PartValue.text (o.negativePrompt.getD ""))
    ++ optPart o.seed.isSome "seed" (PartValue.text (toString (o.seed.getD 0)))
    ++ optPart (jsTruthy o.aspectRatio) "aspect_ratio"
         (PartValue.text (o.aspectRatio.getD ""))
    ++ [⟨"output_format", PartValue.text (jsOr o.outputFormat "png")⟩]
  let tail : Form :=
    optPart (jsTruthy o.stylePreset
              && (model == GenerationModel.core || jsStartsWith (modelName model) "sd3.5"))
      "style_preset" (PartValue.text (o.stylePreset.getD ""))
  let strengthPart : Form :=
    optPart o.strength.isSome "strength" (PartValue.text (toString (o.strength.getD 0)))
  if jsStartsWith (modelName model) "sd3.5" then
    if jsTruthy o.image then
      match fileBlob fs cwd (o.image.getD "") with
      | Except.error e => Except.error e
      | Except.ok blob =>
        Except.ok
          { endpoint := endpoint,
            form := base
              ++ ([⟨"model", PartValue.text (modelName model)⟩,
                   ⟨"mode", PartValue.text "image-to-image"⟩,
                   ⟨"image", blob⟩] ++ strengthPart)
              ++ tail }
    else
      Except.ok
        { endpoint := endpoint,
          form := base
            ++ [⟨"model", PartValue.text (modelName model)⟩,
                ⟨"mode", PartValue.text "text-to-image"⟩]
            ++ tail }
  else if model == GenerationModel.ultra && jsTruthy o.image then
    match fileBlob fs cwd (o.image.getD "") with
    | Except.error e => Except.error e
    | Except.ok blob =>
      Except.ok
        { endpoint := endpoint,
          form := base ++ ([⟨"image", blob⟩] ++ strengthPart) ++ tail }
  else
    Except.ok { endpoint := endpoint, form := base ++ [] ++ tail }

/-- Options of `StabilityClient.upscaleImage`. -/
structure UpscaleOptions where
  image : String
  mode : Option UpscaleMode := none
  prompt : Option String := none
  negativePrompt : Option String := none
  seed : Option Nat := none
  creativity : Option ℚ := none
  outputFormat : Option String := none
deriving DecidableEq, Repr

/-- `StabilityClient.upscaleImage` up to the network call: image blob and
output format always, prompt/negative/seed/creativity only for non-`fast`
modes, and the `creative` mode marked asynchronous. -/
def upscaleImage (fs : List String) (cwd : String) (o : UpscaleOptions) :
    Except String BuiltRequest :=
  let mode := o.mode.getD UpscaleMode.fast
  let endpoint := UPSCALE_ENDPOINTS mode
  match fileBlob fs cwd o.image with
  | Except.error e => Except.error e
  | Except.ok blob =>
    let extra : Form :=
      if mode ≠ UpscaleMode.fast then
        optPart (jsTruthy o.prompt) "prompt" (PartValue.text (o.prompt.getD ""))
        ++ optPart (jsTruthy o.negativePrompt) "negative_prompt"
             (PartValue.text (o.negativePrompt.getD ""))
        ++ optPart o.seed.isSome "seed" (PartValue.text (toString (o.seed.getD 0)))
        ++ optPart o.creativity.isSome "creativity"
             (PartValue.text (toString (o.creativity.getD 0)))
      else []
    Except.ok
      { endpoint := endpoint,
        form :=
          [⟨"image", blob⟩, ⟨"output_format", PartValue.text (jsOr o.outputFormat "png")⟩]
            ++ extra,
        async := decide (mode = UpscaleMode.creative) }

/-- Options of `StabilityClient.eraseObject`. -/
structure EraseOptions where
  image : String
  mask : Option String := none
  outputFormat : Option String := none
deriving DecidableEq, Repr

/-- `StabilityClient.eraseObject` up to the network call. -/
def eraseObject (fs : List String) (cwd : String) (o : EraseOptions) :
    Except String BuiltRequest :=
  match fileBlob fs cwd o.image with
  | Except.error e => Except.error e
  | Except.ok blob =>
    match (if jsTruthy o.mask then
            (fileBlob fs cwd (o.mask.getD "")).map (fun m => [(⟨"mask", m⟩ : FormPart)])
          else Except.ok []) with
    | Except.error e => Except.error e
    | Except.ok maskPart =>
      Except.ok
        { endpoint := "/v2beta/stable-image/edit/erase",
          form := [⟨"image", blob⟩] ++ maskPart
            ++ [⟨"output_format", PartValue.text (jsOr o.outputFormat "png")⟩] }

/-- Result of one MCP tool handler, before any network traffic: either an
`isError` text content (no upstream request was or will be issued) or the
upstream request the handler proceeds to dispatch. -/
inductive ToolResponse
  | errorText (text : String)
  | issued (r : BuiltRequest)
deriving DecidableEq, Repr

/-- The `erase_object` tool handler from the MCP server: the pre-dispatch
existence check on `image_path` (whose error text interpolates the
caller-supplied path, not the resolved one), then the client call; an error
thrown by the client is caught and wrapped as `Stability AI error: <message>`. -/
def eraseObjectHandler (fs : List String) (cwd : String)
    (image_path : String) (mask_path : Option String) (output_format : Option String) :
    ToolResponse :=
  if resolve cwd image_path ∈ fs then
    match eraseObject fs cwd { image := image_path, mask := mask_path,
                               outputFormat := output_format } with
    | Except.ok r => ToolResponse.issued r
    | Except.error m => ToolResponse.errorText ("Stability AI error: " ++ m)
  else
    ToolResponse.errorText ("Image not found: " ++ image_path)

/-- An upstream HTTP response as seen by the client: status code, the headers
it reads (each `headers.get` result is `Option String`, `none` for a missing
header), and the raw body (text for error bodies, the binary payload
otherwise). -/
structure HttpResponse where
  status : Nat
  contentType : Option String := none
  xSeed : Option String := none
  finishReason : Option String := none
  body : String := ""
deriving DecidableEq, Repr

/-- `response.ok` of the Fetch API: status in `[200, 300)`. -/
def respOk (r : HttpResponse) : Bool :=
  decide (200 ≤ r.status) && decide (r.status < 300)

/-- The uniform image result (`ImageResult` of the client): binary data, a
format derived from the content type, and best-effort seed / finish-reason
metadata from dedicated headers. -/
structure ImageResult where
  data : String
  format : String
  seed : Option Int := none
  finishReason : Option String := none
deriving DecidableEq, Repr

/-- The synchronous result decoding shared by `postImage` and the poll-success
branch of `postImageAsync`: content type defaulted to `image/png`, format by
substring match (`jpeg`, then `webp`, else `png`), seed parsed from the
`x-seed` header when that header is truthy, finish-reason from the
`finish-reason` header when truthy. -/
def decodeImage (r : HttpResponse) : ImageResult :=
  let contentType := jsOr r.contentType "image/png"
  let format :=
    if includes contentType "jpeg" then "jpeg"
    else if includes contentType "webp" then "webp"
    else "png"
  { data := r.body, format := format,
    seed := if jsTruthy r.xSeed then parseIntJS (r.xSeed.getD "") else none,
    finishReason := if jsTruthy r.finishReason then r.finishReason else none }

/-- `StabilityClient.postImage` applied to the response it receives: any
non-2xx response raises the generic transport error carrying the status code
and body text; a success is decoded by `decodeImage`. -/
def postImage (resp : HttpResponse) : Except String ImageResult :=
  if !(respOk resp) then
    Except.error ("Stability AI error (HTTP " ++ toString resp.status ++ "): " ++ resp.body)
  else
    Except.ok (decodeImage resp)

/-- `maxAttempts` of `postImageAsync`. -/
def maxAttempts : Nat := 60

/-- `pollInterval` of `postImageAsync`, in milliseconds. -/
def pollInterval : Nat := 5000

/-- Terminal outcome of the polling loop, one constructor per exit point of the
source: the decoded success, the `Polling failed (HTTP …)` transport error, or
the `Async generation timed out after … seconds` timeout (which carries no
HTTP status). -/
inductive PollOutcome
  | success (r : ImageResult)
  | pollFailed (status : Nat) (body : String)
  | timedOut (seconds : Nat)
deriving DecidableEq, Repr

/-- The polling loop of `postImageAsync`: up to `remaining` further attempts,
numbered from `attempt`.  Each iteration first waits one `pollInterval`, then
polls; a 202 continues the loop, any other non-2xx aborts with the transport
error, and a success is decoded.  Returns the outcome together with the total
milliseconds spent waiting.  `polls n` is the response of the results endpoint
to the `n`-th poll. -/
def pollLoop (polls : Nat → HttpResponse) : Nat → Nat → PollOutcome × Nat
  | _, 0 => (PollOutcome.timedOut (maxAttempts * pollInterval / 1000), 0)
  | attempt, remaining + 1 =>
    let resp := polls attempt
    if resp.status = 202 then
      let next := pollLoop polls (attempt + 1) remaining
      (next.1, next.2 + pollInterval)
    else if !(respOk resp) then
      (PollOutcome.pollFailed resp.status resp.body, pollInterval)
    else
      (PollOutcome.success (decodeImage resp), pollInterval)

/-- The job-submission response of `postImageAsync`: status, the `id` field of
the parsed JSON body (if present), and the raw body text. -/
structure SubmitResponse where
  status : Nat
  id : Option String := none
  body : String := ""
deriving DecidableEq, Repr

/-- Overall outcome of `postImageAsync`, one constructor per exit point before
or inside the poll loop. -/
inductive AsyncOutcome
  | submitFailed (status : Nat) (body : String)
  | noGenerationId
  | polled (o : PollOutcome)
deriving DecidableEq, Repr

/-- `StabilityClient.postImageAsync` given the submit response and the results
endpoint: a non-2xx submission is the generic transport error; a falsy job id
is the `No generation ID returned` protocol error; otherwise the poll loop
runs with `maxAttempts` attempts from attempt 0.  The second component is the
total milliseconds spent in polling delays. -/
def postImageAsync (submit : SubmitResponse) (polls : Nat → HttpResponse) :
    AsyncOutcome × Nat :=
  if !(decide (200 ≤ submit.status) && decide (submit.status < 300)) then
    (AsyncOutcome.submitFailed submit.status submit.body, 0)
  else if !(jsTruthy submit.id) then
    (AsyncOutcome.noGenerationId, 0)
  else
    let r := pollLoop polls 0 maxAttempts
    (AsyncOutcome.polled r.1, r.2)

/-- A JavaScript `Error`-like value as inspected by `handleError`: its `name`
and its `message`. -/
structure JsError where
  name : String := "Error"
  message : String := ""
deriving DecidableEq, Repr

/-- `StabilityClient.handleError`: classifies an error value into one of four
distinct human-readable messages (timeout, authentication 401/403, rate limit
429, insufficient balance 402) by substring tests on the message, falling back
to a generic `Stability AI error: <message>` form.  Defined in the source but
not invoked from any dispatch path. -/
def handleError (error : JsError) : String :=
  if error.name == "TimeoutError" || includes error.message "timeout" then
    "Stability AI API request timed out. Please try again."
  else if includes error.message "401" || includes error.message "403" then
    "Invalid Stability AI API key. Please check your STABILITY_API_KEY environment variable."
  else if includes error.message "429" then
    "Stability AI API rate limit exceeded. Please wait a moment and try again."
  else if includes error.message "402" then
    "Insufficient credits. Please add credits at platform.stability.ai."
  else
    "Stability AI error: " ++ error.message

/-- The five `fetch` call sites of the client, each with its own
`AbortSignal.timeout` argument. -/
inductive RequestSite
  | postImage | postRaw | asyncSubmit | asyncPoll | balance
deriving DecidableEq, Repr

/-- The `AbortSignal.timeout` argument at each `fetch` call site, as a function
of the configured base timeout: `this.timeout * 3` in `postImage` and
`postRaw`, `this.timeout` for the async submission, the async poll, and the
balance check. -/
def requestTimeoutMs (timeout : Nat) : RequestSite → Nat
  | .postImage => timeout * 3
  | .postRaw => timeout * 3
  | .asyncSubmit => timeout
  | .asyncPoll => timeout
  | .balance => timeout

/-- Modelled from the spec: which request sites are the "binary/image-producing
requests" of the claim — the synchronous image call and the 3D call — as
opposed to its "JSON/status calls (job submission, results polling, balance
check)". -/
def binaryProducing : RequestSite → Bool
  | .postImage => true
  | .postRaw => true
  | .asyncSubmit => false
  | .asyncPoll => false
  | .balance => false

/-- The process environment as read by `loadConfig`. -/
structure Env where
  STABILITY_API_KEY : Option String := none
  STABILITY_TIMEOUT : Option String := none
  STABILITY_OUTPUT_DIR : Option String := none
  STABILITY_3D_OUTPUT_DIR : Option String := none
deriving DecidableEq, Repr

/-- The configuration produced by `loadConfig`.  The timeout is an `Option Int`
whose `none` models the JavaScript `NaN` produced by `parseInt` on a string
with no leading digits. -/
structure Config where
  apiKey : String
  timeout : Option Int
  outputDir : String
  output3dDir : String
deriving DecidableEq, Repr

/-- `loadConfig`: a falsy (`undefined` or empty) credential is a startup error;
the timeout is `parseInt(STABILITY_TIMEOUT, 10)` when that variable is truthy
and `60000` otherwise; the `timeout <= 0` guard fires only for an actual
number `≤ 0` (the comparison is false for `NaN`, exactly as in JavaScript). -/
def loadConfig (env : Env) : Except String Config :=
  if !(jsTruthy env.STABILITY_API_KEY) then
    Except.error
      "Stability AI API key not configured. Please set the STABILITY_API_KEY environment variable."
  else
    let outputDir := jsOr env.STABILITY_OUTPUT_DIR "./generated-images"
    let output3dDir := jsOr env.STABILITY_3D_OUTPUT_DIR "./generated-3d"
    let timeout : Option Int :=
      if jsTruthy env.STABILITY_TIMEOUT then parseIntJS (env.STABILITY_TIMEOUT.getD "")
      else some 60000
    if (match timeout with | some v => decide (v ≤ 0) | none => false) then
      Except.error "STABILITY_TIMEOUT must be a positive number"
    else
      Except.ok
        { apiKey := env.STABILITY_API_KEY.getD "", timeout := timeout,
          outputDir := outputDir, output3dDir := output3dDir }

deriving instance DecidableEq for Except

/-! ### Helper lemmas about forms and the polling loop -/

lemma hasField_nil (n : String) : hasField [] n = false := rfl

lemma hasField_cons (p : FormPart) (f : Form) (n : String) :
    hasField (p :: f) n = ((p.name == n) || hasField f n) := by
  simp [hasField]

lemma hasField_append (f g : Form) (n : String) :
    hasField (f ++ g) n = (hasField f n || hasField g n) :=
  List.any_append

lemma hasField_optPart (b : Bool) (m : String) (v : PartValue) (n : String) :
    hasField (optPart b m v) n = (b && (m == n)) := by
  cases b <;> simp [optPart, hasField]

lemma getField_nil (n : String) : getField [] n = none := rfl

lemma getField_cons (p : FormPart) (f : Form) (n : String) :
    getField (p :: f) n = if p.name == n then some p.value else getField f n := by
  by_cases h : p.name == n
  · simp [getField, List.find?, h]
  · simp only [getField, List.find?] at *
    rw [Bool.not_eq_true] at h
    simp [h]

lemma getField_append (f g : Form) (n : String) :
    getField (f ++ g) n =
      match getField f n with
      | some v => some v
      | none => getField g n := by
  induction f with
  | nil => simp [getField_nil]
  | cons p f ih =>
    rw [List.cons_append, getField_cons, getField_cons]
    by_cases h : p.name == n <;> simp [h, ih]

lemma getField_optPart (b : Bool) (m : String) (v : PartValue) (n : String) :
    getField (optPart b m v) n = if b && (m == n) then some v else none := by
  cases b <;> by_cases h : m == n <;> simp [optPart, getField_cons, getField_nil, h]

lemma pollLoop_timeout (polls : Nat → HttpResponse) :
    ∀ (r a : Nat), (∀ i, i < r → (polls (a + i)).status = 202) →
    pollLoop polls a r = (PollOutcome.timedOut 300, r * pollInterval) := by
  intro r
  induction r with
  | zero =>
    intro a _
    simp [pollLoop, maxAttempts, pollInterval]
  | succ r ih =>
    intro a h
    have h0 : (polls a).status = 202 := by simpa using h 0 (Nat.succ_pos r)
    simp only [pollLoop]
    rw [if_pos h0]
    have harg : ∀ i, i < r → (polls (a + 1 + i)).status = 202 := fun i hi => by
      have := h (i + 1) (by omega)
      simpa [show a + 1 + i = a + (i + 1) by omega] using this
    rw [ih (a + 1) harg]
    simp [Nat.succ_mul]

lemma pollLoop_success_at (polls : Nat → HttpResponse) :
    ∀ (k a r : Nat), k < r →
    (∀ i, i < k → (polls (a + i)).status = 202) →
    (polls (a + k)).status ≠ 202 →
    respOk (polls (a + k)) = true →
    pollLoop polls a r =
      (PollOutcome.success (decodeImage (polls (a + k))), (k + 1) * pollInterval) := by
  intro k
  induction k with
  | zero =>
    intro a r hr h202 hne hok
    match r, hr with
    | r' + 1, _ =>
      simp only [pollLoop]
      rw [Nat.add_zero] at hne hok
      rw [if_neg hne]
      simp [hok]
  | succ k ih =>
    intro a r hr h202 hne hok
    match r, hr with
    | r' + 1, hr =>
      have h0 : (polls a).status = 202 := by simpa using h202 0 (Nat.succ_pos k)
      simp only [pollLoop]
      rw [if_pos h0]
      have harg : ∀ i, i < k → (polls (a + 1 + i)).status = 202 := fun i hi => by
        have := h202 (i + 1) (by omega)
        simpa [show a + 1 + i = a + (i + 1) by omega] using this
      have hne' : (polls (a + 1 + k)).status ≠ 202 := by
        simpa [show a + 1 + k = a + (k + 1) by omega] using hne
      have hok' : respOk (polls (a + 1 + k)) = true := by
        simpa [show a + 1 + k = a + (k + 1) by omega] using hok
      rw [ih (a + 1) r' (by omega) harg hne' hok']
      simp [show a + 1 + k = a + (k + 1) by omega, Nat.succ_mul]

/-! ### Claim theorems -/

/-- C1: for every job submission that returns a job identifier, the poller
waits one fixed `pollInterval` (5000 ms) before each poll; every 202 poll
response continues the loop, and the first non-202 success response ends the
loop with its binary body returned as the result, with the format derived from
the content-type header (`decodeImage`).  If the first `k` polls answer 202 and
poll `k` succeeds, the poller returns that decoded response having waited
exactly `k + 1` intervals. -/
theorem async_poller_success_after_202s
    (submit : SubmitResponse) (polls : Nat → HttpResponse) (k : Nat)
    (hs₁ : 200 ≤ submit.status) (hs₂ : submit.status < 300)
    (hid : jsTruthy submit.id = true)
    (hk : k < maxAttempts)
    (h202 : ∀ i, i < k → (polls i).status = 202)
    (hne : (polls k).status ≠ 202)
    (hok : respOk (polls k) = true) :
    postImageAsync submit polls =
      (AsyncOutcome.polled (PollOutcome.success (decodeImage (polls k))),
       (k + 1) * pollInterval)
    ∧ (decodeImage (polls k)).data = (polls k).body
    ∧ pollInterval = 5000 := by
  refine ⟨?_, rfl, rfl⟩
  have hloop := pollLoop_success_at polls k 0 maxAttempts hk
    (fun i hi => by simpa using h202 i hi)
    (by simpa using hne) (by simpa using hok)
  simp [postImageAsync, hs₁, hs₂, hid, hloop]

/-- A results endpoint answering 202 three times and then 200 with a PNG body:
the poller returns the binary body after exactly 4 intervals. -/
def pollsOkAtFour : Nat → HttpResponse := fun i =>
  if i < 3 then { status := 202 }
  else { status := 200, contentType := some "image/png", body := "BIN" }

theorem async_poller_success_after_202s_witness :
    postImageAsync { status := 200, id := some "abc123" } pollsOkAtFour =
      (AsyncOutcome.polled (PollOutcome.success (decodeImage (pollsOkAtFour 3))),
       (3 + 1) * pollInterval)
    ∧ (decodeImage (pollsOkAtFour 3)).data = (pollsOkAtFour 3).body
    ∧ pollInterval = 5000 :=
  async_poller_success_after_202s { status := 200, id := some "abc123" } pollsOkAtFour 3
    (by decide) (by decide) (by decide) (by decide) (by decide) (by decide) (by decide)

/-- C2: if the results endpoint answers 202 on every poll, the poller stops
after exactly `maxAttempts = 60` attempts with the dedicated timeout outcome
(carrying only the elapsed seconds, no HTTP status), which is a different
constructor from both transport-error outcomes. -/
theorem async_poller_timeout_after_60
    (submit : SubmitResponse) (polls : Nat → HttpResponse)
    (hs₁ : 200 ≤ submit.status) (hs₂ : submit.status < 300)
    (hid : jsTruthy submit.id = true)
    (h202 : ∀ i, i < maxAttempts → (polls i).status = 202) :
    postImageAsync submit polls =
      (AsyncOutcome.polled (PollOutcome.timedOut 300), maxAttempts * pollInterval)
    ∧ (∀ s b, (AsyncOutcome.polled (PollOutcome.timedOut 300) : AsyncOutcome) ≠
        AsyncOutcome.polled (PollOutcome.pollFailed s b))
    ∧ (∀ s b, (AsyncOutcome.polled (PollOutcome.timedOut 300) : AsyncOutcome) ≠
        AsyncOutcome.submitFailed s b)
    ∧ maxAttempts = 60 := by
  refine ⟨?_, ?_, ?_, rfl⟩
  · have hloop := pollLoop_timeout polls maxAttempts 0 (fun i hi => by simpa using h202 i hi)
    simp [postImageAsync, hs₁, hs₂, hid, hloop]
  · intro s b h
    cases h
  · intro s b h
    cases h

theorem async_poller_timeout_after_60_witness :
    postImageAsync { status := 200, id := some "abc123" } (fun _ => { status := 202 }) =
      (AsyncOutcome.polled (PollOutcome.timedOut 300), maxAttempts * pollInterval)
    ∧ (∀ s b, (AsyncOutcome.polled (PollOutcome.timedOut 300) : AsyncOutcome) ≠
        AsyncOutcome.polled (PollOutcome.pollFailed s b))
    ∧ (∀ s b, (AsyncOutcome.polled (PollOutcome.timedOut 300) : AsyncOutcome) ≠
        AsyncOutcome.submitFailed s b)
    ∧ maxAttempts = 60 :=
  async_poller_timeout_after_60 { status := 200, id := some "abc123" }
    (fun _ => { status := 202 }) (by decide) (by decide) (by decide)
    (fun i _ => rfl)

/-- C6: the inferred content type of an attached file is a function of the
lower-cased file extension alone, through the fixed table of `getMimeType`
with `image/png` as the default; in particular `x.jpeg`, `x.JPG`, `x.webp`,
`x.png`, `x.unknown_ext` map to `image/jpeg`, `image/jpeg`, `image/webp`,
`image/png`, `image/png`. -/
theorem mime_from_extension :
    getMimeType "x.jpeg" = "image/jpeg"
    ∧ getMimeType "x.JPG" = "image/jpeg"
    ∧ getMimeType "x.webp" = "image/webp"
    ∧ getMimeType "x.png" = "image/png"
    ∧ getMimeType "x.unknown_ext" = "image/png"
    ∧ ∀ p q : String, jsToLowerCase (extname p) = jsToLowerCase (extname q) →
        getMimeType p = getMimeType q := by
  refine ⟨by decide, by decide, by decide, by decide, by decide, ?_⟩
  intro p q h
  simp only [getMimeType, h]

theorem mime_from_extension_witness :
    getMimeType "a.PNG" = getMimeType "b.png" :=
  mime_from_extension.2.2.2.2.2 "a.PNG" "b.png" (by decide)

/-- C7: for a positive configured base timeout, the per-request deadline is
three times the base exactly at the binary-producing `fetch` sites
(`postImage` and the 3D `postRaw`), and equals the base timeout at the
JSON/status sites: job submission, results polling, and the balance check. -/
theorem timeout_selection (t : Nat) (ht : 0 < t) :
    (∀ s, requestTimeoutMs t s = 3 * t ↔ binaryProducing s = true)
    ∧ requestTimeoutMs t RequestSite.asyncSubmit = t
    ∧ requestTimeoutMs t RequestSite.asyncPoll = t
    ∧ requestTimeoutMs t RequestSite.balance = t := by
  refine ⟨?_, rfl, rfl, rfl⟩
  intro s
  cases s <;> simp [requestTimeoutMs, binaryProducing] <;> omega

theorem timeout_selection_witness :
    requestTimeoutMs 60000 RequestSite.postImage = 3 * 60000
    ∧ requestTimeoutMs 60000 RequestSite.asyncSubmit = 60000 :=
  ⟨((timeout_selection 60000 (by decide)).1 RequestSite.postImage).mpr (by decide),
   (timeout_selection 60000 (by decide)).2.1⟩

/-- C3 counterexample: on the main dispatch path (`postImage`), a 401 response
does not get the distinct authentication message — it raises exactly the
generic transport error form carrying the raw status code, and likewise for
429; the classification of `handleError` is not applied there. -/
theorem transport_error_401_generic_counterexample :
    postImage { status := 401, body := "Unauthorized" } =
      Except.error ("Stability AI error (HTTP " ++ toString 401 ++ "): " ++ "Unauthorized")
    ∧ postImage { status := 401, body := "Unauthorized" } ≠
      Except.error
        "Invalid Stability AI API key. Please check your STABILITY_API_KEY environment variable."
    ∧ postImage { status := 429, body := "slow down" } =
      Except.error ("Stability AI error (HTTP " ++ toString 429 ++ "): " ++ "slow down") := by
  refine ⟨by decide, by decide, by decide⟩

/-- C3 amended: the `handleError` helper does classify timeout, 401/403, 429
and 402 into four distinct human-readable messages with a generic fallback,
but it is not invoked by the main dispatch paths: `postImage` raises the
generic transport error carrying the status code and body text for every
non-2xx response. -/
theorem transport_error_classification_amended :
    (∀ resp : HttpResponse, respOk resp = false →
      postImage resp =
        Except.error ("Stability AI error (HTTP " ++ toString resp.status ++ "): " ++ resp.body))
    ∧ handleError { name := "TimeoutError", message := "" } =
        "Stability AI API request timed out. Please try again."
    ∧ handleError { name := "Error", message := "Stability AI error (HTTP 401): x" } =
        "Invalid Stability AI API key. Please check your STABILITY_API_KEY environment variable."
    ∧ handleError { name := "Error", message := "Stability AI error (HTTP 403): x" } =
        "Invalid Stability AI API key. Please check your STABILITY_API_KEY environment variable."
    ∧ handleError { name := "Error", message := "Stability AI error (HTTP 429): x" } =
        "Stability AI API rate limit exceeded. Please wait a moment and try again."
    ∧ handleError { name := "Error", message := "Stability AI error (HTTP 402): x" } =
        "Insufficient credits. Please add credits at platform.stability.ai."
    ∧ handleError { name := "Error", message := "boom" } = "Stability AI error: " ++ "boom"
    ∧ handleError { name := "TimeoutError", message := "" } ≠
        handleError { name := "Error", message := "Stability AI error (HTTP 401): x" }
    ∧ handleError { name := "Error", message := "Stability AI error (HTTP 401): x" } ≠
        handleError { name := "Error", message := "Stability AI error (HTTP 429): x" }
    ∧ handleError { name := "Error", message := "Stability AI error (HTTP 429): x" } ≠
        handleError { name := "Error", message := "Stability AI error (HTTP 402): x" } := by
  refine ⟨?_, by decide, by decide, by decide, by decide, by decide, by decide,
    by decide, by decide, by decide⟩
  intro resp h
  simp [postImage, h]

theorem transport_error_classification_witness :
    postImage { status := 500, body := "oops" } =
      Except.error ("Stability AI error (HTTP " ++ toString 500 ++ "): " ++ "oops") :=
  transport_error_classification_amended.1 { status := 500, body := "oops" } (by decide)

/-- Options for the C4 counterexample: an optional text field supplied as the
empty string. -/
def emptyNegativeOptions : GenerateOptions :=
  { prompt := "p", negativePrompt := some "" }

/-- C4 counterexample: the caller supplied a value (the empty string) for the
optional `negative_prompt` field, yet the constructed body contains no
`negative_prompt` part — JavaScript truthiness drops supplied empty strings,
so "appears if and only if supplied" fails. -/
theorem optional_field_empty_string_counterexample :
    generateImage [] "/w" emptyNegativeOptions =
      Except.ok
        { endpoint := "/v2beta/stable-image/generate/core",
          form := [⟨"prompt", PartValue.text "p"⟩, ⟨"output_format", PartValue.text "png"⟩],
          async := false }
    ∧ emptyNegativeOptions.negativePrompt.isSome = true
    ∧ hasField [⟨"prompt", PartValue.text "p"⟩, ⟨"output_format", PartValue.text "png"⟩]
        "negative_prompt" = false := by
  refine ⟨by decide, by decide, by decide⟩

attribute [simp] hasField_append hasField_cons hasField_optPart hasField_nil

@[simp] lemma jsStartsWith_core_sd35 : jsStartsWith "core" "sd3.5" = false := by decide

@[simp] lemma jsStartsWith_ultra_sd35 : jsStartsWith "ultra" "sd3.5" = false := by decide

@[simp] lemma jsStartsWith_sd35Large_sd35 : jsStartsWith "sd3.5-large" "sd3.5" = true := by decide

@[simp] lemma jsStartsWith_sd35LargeTurbo_sd35 :
    jsStartsWith "sd3.5-large-turbo" "sd3.5" = true := by decide

@[simp] lemma jsStartsWith_sd35Medium_sd35 : jsStartsWith "sd3.5-medium" "sd3.5" = true := by decide

@[simp] lemma beq_core_ultra : (GenerationModel.core == GenerationModel.ultra) = false := by decide

@[simp] lemma beq_core_core : (GenerationModel.core == GenerationModel.core) = true := by decide

@[simp] lemma beq_ultra_core : (GenerationModel.ultra == GenerationModel.core) = false := by decide

@[simp] lemma beq_ultra_ultra : (GenerationModel.ultra == GenerationModel.ultra) = true := by decide

@[simp] lemma beq_sd35Large_core :
    (GenerationModel.sd35Large == GenerationModel.core) = false := by decide

@[simp] lemma beq_sd35Large_ultra :
    (GenerationModel.sd35Large == GenerationModel.ultra) = false := by decide

@[simp] lemma beq_sd35LargeTurbo_core :
    (GenerationModel.sd35LargeTurbo == GenerationModel.core) = false := by decide

@[simp] lemma beq_sd35LargeTurbo_ultra :
    (GenerationModel.sd35LargeTurbo == GenerationModel.ultra) = false := by decide

@[simp] lemma beq_sd35Medium_core :
    (GenerationModel.sd35Medium == GenerationModel.core) = false := by decide

@[simp] lemma beq_sd35Medium_ultra :
    (GenerationModel.sd35Medium == GenerationModel.ultra) = false := by decide

@[simp] lemma beq_fast_fast : (UpscaleMode.fast == UpscaleMode.fast) = true := by decide

@[simp] lemma beq_conservative_fast :
    (UpscaleMode.conservative == UpscaleMode.fast) = false := by decide

@[simp] lemma beq_creative_fast : (UpscaleMode.creative == UpscaleMode.fast) = false := by decide

/-- C4 amended: an optional field appears in the constructed multipart body
exactly when the caller supplied a JavaScript-truthy value for it (any value
for numeric fields, a non-empty string for text fields) and the operation
variant's branch includes that field; unset fields contribute no part at all,
and the builder-applied `output_format` default is always present.  Stated for
the two cited builders, `generateImage` and `upscaleImage`. -/
theorem optional_fields_presence_amended :
    (∀ (fs : List String) (cwd : String) (o : GenerateOptions) (r : BuiltRequest),
      generateImage fs cwd o = Except.ok r →
      hasField r.form "negative_prompt" = jsTruthy o.negativePrompt
      ∧ hasField r.form "seed" = o.seed.isSome
      ∧ hasField r.form "aspect_ratio" = jsTruthy o.aspectRatio
      ∧ hasField r.form "output_format" = true
      ∧ hasField r.form "style_preset" =
          (jsTruthy o.stylePreset
            && (o.model.getD GenerationModel.core == GenerationModel.core
                || jsStartsWith (modelName (o.model.getD GenerationModel.core)) "sd3.5"))
      ∧ hasField r.form "strength" =
          (o.strength.isSome && jsTruthy o.image
            && (jsStartsWith (modelName (o.model.getD GenerationModel.core)) "sd3.5"
                || o.model.getD GenerationModel.core == GenerationModel.ultra)))
    ∧ (∀ (fs : List String) (cwd : String) (o : UpscaleOptions) (r : BuiltRequest),
      upscaleImage fs cwd o = Except.ok r →
      hasField r.form "prompt" =
        (!(o.mode.getD UpscaleMode.fast == UpscaleMode.fast) && jsTruthy o.prompt)
      ∧ hasField r.form "negative_prompt" =
        (!(o.mode.getD UpscaleMode.fast == UpscaleMode.fast) && jsTruthy o.negativePrompt)
      ∧ hasField r.form "seed" =
        (!(o.mode.getD UpscaleMode.fast == UpscaleMode.fast) && o.seed.isSome)
      ∧ hasField r.form "creativity" =
        (!(o.mode.getD UpscaleMode.fast == UpscaleMode.fast) && o.creativity.isSome)
      ∧ hasField r.form "output_format" = true
      ∧ hasField r.form "image" = true) := by
  constructor
  · intro fs cwd o r h
    unfold generateImage at h
    rcases ho : o.model with _ | m
    · simp only [ho, Option.getD_none, Option.getD_some, modelName] at h ⊢
      repeat' split at h
      all_goals try cases h
      all_goals simp_all
    · cases m <;>
        (simp only [ho, Option.getD_none, Option.getD_some, modelName] at h ⊢
         repeat' split at h
         all_goals try cases h
         all_goals simp_all)
  · intro fs cwd o r h
    unfold upscaleImage at h
    rcases hm : o.mode with _ | m
    · simp only [hm, Option.getD_none, Option.getD_some] at h ⊢
      repeat' split at h
      all_goals try cases h
      all_goals simp_all
    · cases m <;>
        (simp only [hm, Option.getD_none, Option.getD_some] at h ⊢
         repeat' split at h
         all_goals try cases h
         all_goals simp_all)

/-- Options with two supplied optional fields, for the C4 witness. -/
def suppliedOptions : GenerateOptions :=
  { prompt := "p", negativePrompt := some "n", seed := some 7 }

/-- The request `generateImage` builds for `suppliedOptions`. -/
def suppliedRequest : BuiltRequest :=
  { endpoint := "/v2beta/stable-image/generate/core",
    form := [⟨"prompt", PartValue.text "p"⟩, ⟨"negative_prompt", PartValue.text "n"⟩,
             ⟨"seed", PartValue.text "7"⟩, ⟨"output_format", PartValue.text "png"⟩],
    async := false }

theorem optional_fields_presence_amended_witness :
    hasField suppliedRequest.form "negative_prompt" = jsTruthy suppliedOptions.negativePrompt
    ∧ hasField suppliedRequest.form "seed" = suppliedOptions.seed.isSome
    ∧ hasField suppliedRequest.form "aspect_ratio" = jsTruthy suppliedOptions.aspectRatio := by
  have h := optional_fields_presence_amended.1 [] "/w" suppliedOptions suppliedRequest (by decide)
  exact ⟨h.1, h.2.1, h.2.2.1⟩

/-- C5: a generation request for `sd3.5-large` without an image gets
`mode=text-to-image`, `model=sd3.5-large` and no `image`/`strength` parts; the
same request with a (truthy) image path gets `mode=image-to-image`, the image
part, and a `strength` field exactly when the caller supplied `strength`. -/
theorem sd35_mode_fields :
    (∀ (fs : List String) (cwd : String) (o : GenerateOptions) (r : BuiltRequest),
      o.model = some GenerationModel.sd35Large → o.image = none →
      generateImage fs cwd o = Except.ok r →
      getField r.form "mode" = some (PartValue.text "text-to-image")
      ∧ getField r.form "model" = some (PartValue.text "sd3.5-large")
      ∧ hasField r.form "image" = false
      ∧ hasField r.form "strength" = false)
    ∧ (∀ (fs : List String) (cwd : String) (o : GenerateOptions) (r : BuiltRequest),
      o.model = some GenerationModel.sd35Large → jsTruthy o.image = true →
      generateImage fs cwd o = Except.ok r →
      getField r.form "mode" = some (PartValue.text "image-to-image")
      ∧ hasField r.form "image" = true
      ∧ hasField r.form "strength" = o.strength.isSome) := by
  constructor
  · intro fs cwd o r hm hi h
    unfold generateImage at h
    simp only [hm, hi, Option.getD_some, modelName] at h
    repeat' split at h
    all_goals try cases h
    all_goals simp_all [getField_append, getField_cons, getField_optPart, getField_nil, jsTruthy]
  · intro fs cwd o r hm hi h
    unfold generateImage at h
    simp only [hm, Option.getD_some, modelName] at h
    repeat' split at h
    all_goals try cases h
    all_goals simp_all [getField_append, getField_cons, getField_optPart, getField_nil]

/-- A text-to-image `sd3.5-large` request for the C5 witness. -/
def sd35TextOptions : GenerateOptions :=
  { prompt := "p", model := some GenerationModel.sd35Large }

/-- The request `generateImage` builds for `sd35TextOptions`. -/
def sd35TextRequest : BuiltRequest :=
  { endpoint := "/v2beta/stable-image/generate/sd3",
    form := [⟨"prompt", PartValue.text "p"⟩, ⟨"output_format", PartValue.text "png"⟩,
             ⟨"model", PartValue.text "sd3.5-large"⟩,
             ⟨"mode", PartValue.text "text-to-image"⟩],
    async := false }

/-- An image-to-image `sd3.5-large` request for the C5 witness. -/
def sd35ImageOptions : GenerateOptions :=
  { prompt := "p", model := some GenerationModel.sd35Large, image := some "/w/i.png",
    strength := some 1 }

/-- The request `generateImage` builds for `sd35ImageOptions` when the image
file exists. -/
def sd35ImageRequest : BuiltRequest :=
  { endpoint := "/v2beta/stable-image/generate/sd3",
    form := [⟨"prompt", PartValue.text "p"⟩, ⟨"output_format", PartValue.text "png"⟩,
             ⟨"model", PartValue.text "sd3.5-large"⟩,
             ⟨"mode", PartValue.text "image-to-image"⟩,
             ⟨"image", PartValue.file "/w/i.png" "image/png"⟩,
             ⟨"strength", PartValue.text "1"⟩],
    async := false }

theorem sd35_mode_fields_witness :
    getField sd35TextRequest.form "mode" = some (PartValue.text "text-to-image")
    ∧ getField sd35ImageRequest.form "mode" = some (PartValue.text "image-to-image")
    ∧ hasField sd35ImageRequest.form "strength" = sd35ImageOptions.strength.isSome := by
  have h1 := sd35_mode_fields.1 [] "/w" sd35TextOptions sd35TextRequest rfl rfl (by decide)
  have h2 := sd35_mode_fields.2 ["/w/i.png"] "/w" sd35ImageOptions sd35ImageRequest rfl
    (by decide) (by decide)
  exact ⟨h1.1, h2.1, h2.2.2⟩

/-- C10: for a `core`-model generation request (including the default when no
model is given), a supplied image path is silently ignored: the build always
succeeds and the body contains no `image`, `strength`, `mode` or `model`
parts; and whenever an `image` part is attached, the model was `ultra` or one
of the `sd3.5` models. -/
theorem core_model_ignores_image :
    (∀ (fs : List String) (cwd : String) (o : GenerateOptions),
      o.model = none ∨ o.model = some GenerationModel.core →
      (generateImage fs cwd o).isOk = true)
    ∧ (∀ (fs : List String) (cwd : String) (o : GenerateOptions) (r : BuiltRequest),
      o.model = none ∨ o.model = some GenerationModel.core →
      generateImage fs cwd o = Except.ok r →
      hasField r.form "image" = false ∧ hasField r.form "strength" = false
      ∧ hasField r.form "mode" = false ∧ hasField r.form "model" = false)
    ∧ (∀ (fs : List String) (cwd : String) (o : GenerateOptions) (r : BuiltRequest),
      generateImage fs cwd o = Except.ok r → hasField r.form "image" = true →
      o.model = some GenerationModel.ultra ∨ o.model = some GenerationModel.sd35Large
      ∨ o.model = some GenerationModel.sd35LargeTurbo
      ∨ o.model = some GenerationModel.sd35Medium) := by
  refine ⟨?_, ?_, ?_⟩
  · intro fs cwd o hm
    unfold generateImage
    rcases hm with hm | hm <;>
      simp only [hm, Option.getD_none, Option.getD_some, modelName] <;>
      simp [Except.isOk, Except.toBool]
  · intro fs cwd o r hm h
    unfold generateImage at h
    rcases hm with hm | hm <;>
      (simp only [hm, Option.getD_none, Option.getD_some, modelName] at h
       repeat' split at h
       all_goals try cases h
       all_goals simp_all)
  · intro fs cwd o r h himg
    unfold generateImage at h
    rcases hm : o.model with _ | m
    · simp only [hm, Option.getD_none, modelName] at h
      repeat' split at h
      all_goals try cases h
      all_goals simp_all
    · cases m <;>
        (simp only [hm, Option.getD_none, Option.getD_some, modelName] at h
         repeat' split at h
         all_goals try cases h
         all_goals simp_all)

/-- A `core`-model request with a supplied (missing) image, for the C10
witness. -/
def coreImageOptions : GenerateOptions :=
  { prompt := "p", model := some GenerationModel.core, image := some "/w/missing.png",
    strength := some 1 }

/-- The request `generateImage` builds for `coreImageOptions`: the image is
ignored. -/
def coreImageRequest : BuiltRequest :=
  { endpoint := "/v2beta/stable-image/generate/core",
    form := [⟨"prompt", PartValue.text "p"⟩, ⟨"output_format", PartValue.text "png"⟩],
    async := false }

theorem core_model_ignores_image_witness :
    (generateImage [] "/w" coreImageOptions).isOk = true
    ∧ hasField coreImageRequest.form "image" = false := by
  have h1 := core_model_ignores_image.1 [] "/w" coreImageOptions (Or.inr rfl)
  have h2 := core_model_ignores_image.2.1 [] "/w" coreImageOptions coreImageRequest
    (Or.inr rfl) (by decide)
  exact ⟨h1, h2.1⟩

/-- C8 counterexample: for a relative caller-supplied path to a missing file,
the `erase_object` handler rejects before any request is built, but its error
text interpolates the caller-supplied path verbatim and does not contain the
resolved absolute path. -/
theorem missing_file_relative_path_counterexample :
    eraseObjectHandler [] "/w" "img.png" none none =
      ToolResponse.errorText "Image not found: img.png"
    ∧ resolve "/w" "img.png" = "/w/img.png"
    ∧ includes "Image not found: img.png" "/w/img.png" = false := by
  refine ⟨by decide, by decide, by decide⟩

/-- C8 amended: a missing referenced file is rejected before any network
request (the handler returns an error text and never yields a request):
the client-side builder `fileBlob` fails with an error carrying the resolved
absolute path (as for a missing mask, where the handler surfaces that message),
while the handler's own pre-dispatch check on the primary image rejects with
the caller-supplied path verbatim. -/
theorem missing_file_rejected_amended :
    (∀ (fs : List String) (cwd p : String), resolve cwd p ∉ fs →
      fileBlob fs cwd p = Except.error ("File not found: " ++ resolve cwd p))
    ∧ (∀ (fs : List String) (cwd ip : String) (mp ofmt : Option String),
        resolve cwd ip ∉ fs →
        eraseObjectHandler fs cwd ip mp ofmt =
          ToolResponse.errorText ("Image not found: " ++ ip))
    ∧ (∀ (fs : List String) (cwd ip mp : String) (ofmt : Option String),
        resolve cwd ip ∈ fs → jsTruthy (some mp) = true → resolve cwd mp ∉ fs →
        eraseObjectHandler fs cwd ip (some mp) ofmt =
          ToolResponse.errorText
            ("Stability AI error: " ++ ("File not found: " ++ resolve cwd mp))) := by
  refine ⟨?_, ?_, ?_⟩
  · intro fs cwd p h
    simp [fileBlob, h]
  · intro fs cwd ip mp ofmt h
    simp [eraseObjectHandler, h]
  · intro fs cwd ip mp ofmt hin htr hmask
    simp [eraseObjectHandler, eraseObject, fileBlob, Except.map, hin, htr, hmask]

theorem missing_file_rejected_witness :
    fileBlob [] "/w" "mask.png" = Except.error ("File not found: " ++ resolve "/w" "mask.png")
    ∧ eraseObjectHandler ["/w/img.png"] "/w" "img.png" (some "mask.png") none =
        ToolResponse.errorText
          ("Stability AI error: " ++ ("File not found: " ++ resolve "/w" "mask.png")) := by
  refine ⟨missing_file_rejected_amended.1 [] "/w" "mask.png" (by decide),
    missing_file_rejected_amended.2.2 ["/w/img.png"] "/w" "img.png" "mask.png" none
      (by decide) (by decide) (by decide)⟩

/-- C9 counterexample: with the credential set and `STABILITY_TIMEOUT="abc"`,
`parseInt` yields `NaN` (modelled as `none`), the non-positivity guard does not
fire (`NaN <= 0` is false in JavaScript), and configuration loading succeeds
with a timeout that is not a positive integer — refuting "fails exactly when
the credential is absent or the timeout is non-positive; otherwise the timeout
is a positive integer". -/
theorem load_config_nan_timeout_counterexample :
    loadConfig { STABILITY_API_KEY := some "k", STABILITY_TIMEOUT := some "abc" } =
      Except.ok
        { apiKey := "k", timeout := none, outputDir := "./generated-images",
          output3dDir := "./generated-3d" }
    ∧ loadConfig { STABILITY_API_KEY := some "k", STABILITY_TIMEOUT := some "abc" } ≠
        Except.error "STABILITY_TIMEOUT must be a positive number"
    ∧ ({ apiKey := "k", timeout := none, outputDir := "./generated-images",
         output3dDir := "./generated-3d" } : Config).timeout.isSome = false := by
  refine ⟨by decide, by decide, by decide⟩

/-- C9 amended: configuration loading fails exactly when the credential is
falsy (absent or empty) or the timeout value — `parseInt` of a truthy
`STABILITY_TIMEOUT`, `60000` otherwise — is an actual number `≤ 0`; on success
the configuration's timeout equals that value, is `60000` when the variable is
unset, and every integer it holds is positive (but it may be `NaN`, carrying no
integer, when the string has no leading digits). -/
theorem load_config_spec_amended (env : Env) :
    ((loadConfig env).isOk = false ↔
      (jsTruthy env.STABILITY_API_KEY = false
        ∨ ∃ v : Int,
            (if jsTruthy env.STABILITY_TIMEOUT then parseIntJS (env.STABILITY_TIMEOUT.getD "")
             else some 60000) = some v ∧ v ≤ 0))
    ∧ (∀ cfg : Config, loadConfig env = Except.ok cfg →
        cfg.timeout =
          (if jsTruthy env.STABILITY_TIMEOUT then parseIntJS (env.STABILITY_TIMEOUT.getD "")
           else some 60000)
        ∧ (env.STABILITY_TIMEOUT = none → cfg.timeout = some 60000)
        ∧ ∀ v : Int, cfg.timeout = some v → 0 < v) := by
  cases hk : jsTruthy env.STABILITY_API_KEY
  · have hload : loadConfig env =
        Except.error
          "Stability AI API key not configured. Please set the STABILITY_API_KEY environment variable." := by
      simp [loadConfig, hk]
    rw [hload]
    constructor
    · simp [Except.isOk, Except.toBool]
    · intro cfg hcfg
      cases hcfg
  · rcases htv : (if jsTruthy env.STABILITY_TIMEOUT = true then
        parseIntJS (env.STABILITY_TIMEOUT.getD "") else some 60000) with _ | v
    · have hload : loadConfig env =
          Except.ok
            { apiKey := env.STABILITY_API_KEY.getD "", timeout := none,
              outputDir := jsOr env.STABILITY_OUTPUT_DIR "./generated-images",
              output3dDir := jsOr env.STABILITY_3D_OUTPUT_DIR "./generated-3d" } := by
        simp [loadConfig, hk, htv]
      rw [hload]
      constructor
      · simp [Except.isOk, Except.toBool, hk]
      · intro cfg hcfg
        cases hcfg
        refine ⟨rfl, ?_, ?_⟩
        · intro hst
          rw [hst] at htv
          simp [jsTruthy] at htv
        · intro v hv
          cases hv
    · by_cases hv : v ≤ 0
      · have hload : loadConfig env =
            Except.error "STABILITY_TIMEOUT must be a positive number" := by
          simp [loadConfig, hk, htv, hv]
        rw [hload]
        constructor
        · constructor
          · intro _
            exact Or.inr ⟨v, rfl, hv⟩
          · intro _
            simp [Except.isOk, Except.toBool]
        · intro cfg hcfg
          cases hcfg
      · have hload : loadConfig env =
            Except.ok
              { apiKey := env.STABILITY_API_KEY.getD "", timeout := some v,
                outputDir := jsOr env.STABILITY_OUTPUT_DIR "./generated-images",
                output3dDir := jsOr env.STABILITY_3D_OUTPUT_DIR "./generated-3d" } := by
          simp [loadConfig, hk, htv, hv]
        rw [hload]
        constructor
        · constructor
          · intro hfalse
            exact absurd hfalse (by simp [Except.isOk, Except.toBool])
          · rintro (hkey | ⟨w, hw, hw0⟩)
            · simp_all
            · cases hw
              exact absurd hw0 hv
        · intro cfg hcfg
          cases hcfg
          refine ⟨rfl, ?_, ?_⟩
          · intro hst
            rw [hst] at htv
            simp only [jsTruthy, Bool.false_eq_true, if_false] at htv
            simp_all
          · intro w hw
            cases hw
            omega

theorem load_config_spec_witness :
    ({ apiKey := "k", timeout := some 60000, outputDir := "./generated-images",
       output3dDir := "./generated-3d" } : Config).timeout = some 60000
    ∧ (0 : Int) < 60000 := by
  have h := (load_config_spec_amended { STABILITY_API_KEY := some "k" }).2
    { apiKey := "k", timeout := some 60000, outputDir := "./generated-images",
      output3dDir := "./generated-3d" } (by decide)
  exact ⟨h.2.1 rfl, h.2.2 60000 (h.2.1 rfl)⟩

end StabilityMCP
